import Mathlib

/-!
Shallow embedding of the weather-cli repository's forecast selection and
rendering engine (src/weather.rs, with the enums from src/args.rs).

Modelling conventions:
* `DateTime<Utc>` timestamps are Unix seconds as `Int`; calendar components
  (day-of-month, month, weekday) and `%H:%M` formatting are computed from the
  epoch seconds with the standard proleptic-Gregorian civil-from-days
  algorithm, matching chrono's UTC calendar.
* `f64` measurement values (temperatures, coordinates) are modelled at integer
  precision (`Int`): the engine never does arithmetic on them, it only renders
  them with `Display`, and Rust renders an integral `f64` the way `toString`
  renders the `Int`.
* Rust `.unwrap()` on a missing `Option` field panics; a panic is modelled by
  the dedicated `RunResult.panic` outcome (distinct from `Result::Err`).
* `Utc::now()` is ambient state; it is modelled as an explicit
  `current_time : Int` argument captured once per call, exactly as the source
  captures it once at the top of `display_compact`.
-/

namespace WeatherCli

/-- `DurationType` from src/args.rs. -/
inductive DurationType where
  | Now
  | Today
  | Tomorrow
  | Week
deriving DecidableEq, Repr

/-- `OutputMode` from src/args.rs. -/
inductive OutputMode where
  | Compact
  | Detailed
  | Complete
deriving DecidableEq, Repr

/-- `Geometry` from src/weather.rs (coordinates modelled at integer precision). -/
structure Geometry where
  type : String := ""
  coordinates : List Int := []
deriving DecidableEq, Repr, Inhabited

/-- `Units` from src/weather.rs. -/
structure Units where
  air_pressure_at_sea_level : Option String := none
  air_temperature : Option String := none
  cloud_area_fraction : Option String := none
  precipitation_amount : Option String := none
  relative_humidity : Option String := none
  wind_from_direction : Option String := none
  wind_speed : Option String := none
deriving DecidableEq, Repr, Inhabited

/-- `Meta` from src/weather.rs. -/
structure Meta where
  updated_at : Int := 0
  units : Units := {}
deriving DecidableEq, Repr, Inhabited

/-- `Details` from src/weather.rs (each field independently optional). -/
structure Details where
  air_pressure_at_sea_level : Option Int := none
  air_temperature : Option Int := none
  cloud_area_fraction : Option Int := none
  relative_humidity : Option Int := none
  wind_from_direction : Option Int := none
  wind_speed : Option Int := none
deriving DecidableEq, Repr, Inhabited

/-- `Summary` from src/weather.rs. -/
structure Summary where
  symbol_code : String
deriving DecidableEq, Repr, Inhabited

/-- `Next12Hours` from src/weather.rs. -/
structure Next12Hours where
  summary : Summary
  details : Option Details := none
deriving DecidableEq, Repr, Inhabited

/-- `Next1Hour` from src/weather.rs. -/
structure Next1Hour where
  summary : Summary
  details : Option Details := none
deriving DecidableEq, Repr, Inhabited

/-- `Next6Hours` from src/weather.rs. -/
structure Next6Hours where
  summary : Summary
  details : Option Details := none
deriving DecidableEq, Repr, Inhabited

/-- `Instant` from src/weather.rs: `details` is always present. -/
structure Instant where
  details : Details
deriving DecidableEq, Repr, Inhabited

/-- `Data` from src/weather.rs. -/
structure Data where
  instant : Instant
  next_12_hours : Option Next12Hours := none
  next_1_hours : Option Next1Hour := none
  next_6_hours : Option Next6Hours := none
deriving DecidableEq, Repr, Inhabited

/-- `Timeseries` from src/weather.rs: `time` is the UTC timestamp in Unix seconds. -/
structure Timeseries where
  time : Int
  data : Data
deriving DecidableEq, Repr, Inhabited

/-- `Properties` from src/weather.rs. -/
structure Properties where
  meta : Meta := {}
  timeseries : List Timeseries
deriving DecidableEq, Repr, Inhabited

/-- `WeatherData` from src/weather.rs. -/
structure WeatherData where
  type : String := ""
  geometry : Geometry := {}
  properties : Properties
deriving DecidableEq, Repr, Inhabited

/-- `WeatherError` from src/weather.rs: the single error kind. -/
inductive WeatherError where
  | MissingData
deriving DecidableEq, Repr

/-- Observable outcome of running one of the fallible display functions:
`ok` models `Ok(output)`, `err` models `Err(e)`, and `panic` models a Rust
panic raised by `.unwrap()` on a `None` value (which aborts the call without
returning any `Result` at all). -/
inductive RunResult where
  | ok : String → RunResult
  | err : WeatherError → RunResult
  | panic : RunResult
deriving DecidableEq, Repr

/-! ## Calendar arithmetic (the chrono calls the engine makes, over Unix seconds) -/

/-- Civil days elapsed since 1970-01-01 (floor division, as chrono does for UTC). -/
def daysFromEpoch (t : Int) : Int :=
  t.fdiv 86400

/-- Seconds elapsed since the preceding UTC midnight. -/
def secsOfDay (t : Int) : Nat :=
  (t.fmod 86400).toNat

/-- Proleptic-Gregorian (year, month, day) of a count of days since the epoch:
the standard civil-from-days algorithm, matching chrono's UTC calendar. -/
def civilFromDays (z0 : Int) : Int × Nat × Nat :=
  let z := z0 + 719468
  let era := z.fdiv 146097
  let doe := (z - era * 146097).toNat
  let yoe := (doe - doe / 1460 + doe / 36524 - doe / 146096) / 365
  let y : Int := (yoe : Int) + era * 400
  let doy := doe - (365 * yoe + yoe / 4 - yoe / 100)
  let mp := (5 * doy + 2) / 153
  let d := doy - (153 * mp + 2) / 5 + 1
  let m := if mp < 10 then mp + 3 else mp - 9
  ((if m ≤ 2 then y + 1 else y), m, d)

/-- `DateTime::day()`: day-of-month component (1..31) of a UTC timestamp. -/
def dayOfMonth (t : Int) : Nat :=
  (civilFromDays (daysFromEpoch t)).2.2

/-- Month component (1..12) of a UTC timestamp. -/
def monthOfYear (t : Int) : Nat :=
  (civilFromDays (daysFromEpoch t)).2.1

/-- Weekday index of a UTC timestamp, 0 = Sunday .. 6 = Saturday. -/
def weekdayIdx (t : Int) : Nat :=
  ((daysFromEpoch t + 4).fmod 7).toNat

/-- Full weekday names, indexed by `weekdayIdx` (chrono `%A`). -/
def weekdayNames : List String :=
  ["Sunday", "Monday", "Tuesday", "Wednesday", "Thursday", "Friday", "Saturday"]

/-- Full month names, indexed by month number minus one (chrono `%B`). -/
def monthNames : List String :=
  ["January", "February", "March", "April", "May", "June",
   "July", "August", "September", "October", "November", "December"]

/-- Zero-pad a number to two digits (chrono `%H`, `%M`, `%d`). -/
def pad2 (n : Nat) : String :=
  if n < 10 then "0" ++ toString n else toString n

/-- chrono `format("%H:%M")` on a UTC timestamp. -/
def formatHM (t : Int) : String :=
  pad2 (secsOfDay t / 3600) ++ ":" ++ pad2 (secsOfDay t % 3600 / 60)

/-- chrono `format("%A")` on a UTC timestamp. -/
def formatWeekday (t : Int) : String :=
  weekdayNames.getD (weekdayIdx t) ""

/-- chrono `format("%A, %d %B")` on a UTC timestamp. -/
def formatDate (t : Int) : String :=
  formatWeekday t ++ ", " ++ pad2 (dayOfMonth t) ++ " " ++
    monthNames.getD (monthOfYear t - 1) ""

/-! ## Weather Code Dictionary (`format_weather_description`, src/weather.rs) -/

/-- `format_weather_description` from src/weather.rs: the static table mapping
symbolic weather-condition codes to icon-prefixed human labels, falling back to
the raw code for unknown inputs. -/
def format_weather_description (description : String) : String :=
  match description with
  | "clearsky_day" => "☀️ Clear Sky (Day)"
  | "fair_day" => "🌤️ Fair (Day)"
  | "partlycloudy_day" => "⛅ Partly Cloudy (Day)"
  | "cloudy" => "☁️ Cloudy"
  | "rainshowers_day" => "🌦️ Rain Showers (Day)"
  | "rainshowersandthunder_day" => "⛈️ Rain Showers and Thunder (Day)"
  | "sleetshowers_day" => "🌨️ Sleet Showers (Day)"
  | "snowshowers_day" => "❄️ Snow Showers (Day)"
  | "rain" => "🌧️ Rain"
  | "heavyrain" => "🌧️ Heavy Rain"
  | "heavyrainandthunder" => "⛈️ Heavy Rain and Thunder"
  | "sleet" => "🌨️ Sleet"
  | "snow" => "❄️ Snow"
  | "snowandthunder" => "⛈️ Snow and Thunder"
  | "fog" => "🌫️ Fog"
  | "sleetshowersandthunder_day" => "⛈️ Sleet Showers and Thunder (Day)"
  | "snowshowersandthunder_day" => "⛈️ Snow Showers and Thunder (Day)"
  | "rainandthunder" => "⛈️ Rain and Thunder"
  | "sleetandthunder" => "⛈️ Sleet and Thunder"
  | "lightrainshowersandthunder_day" => "⛈️ Light Rain Showers and Thunder (Day)"
  | "heavyrainshowersandthunder_day" => "⛈️ Heavy Rain Showers and Thunder (Day)"
  | "lightssleetshowersandthunder_day" => "⛈️ Light Sleet Showers and Thunder (Day)"
  | "heavysleetshowersandthunder_day" => "⛈️ Heavy Sleet Showers and Thunder (Day)"
  | "lightssnowshowersandthunder_day" => "⛈️ Light Snow Showers and Thunder (Day)"
  | "heavysnowshowersandthunder_day" => "⛈️ Heavy Snow Showers and Thunder (Day)"
  | "lightrainandthunder" => "⛈️ Light Rain and Thunder"
  | "lightsleetandthunder" => "⛈️ Light Sleet and Thunder"
  | "heavysleetandthunder" => "⛈️ Heavy Sleet and Thunder"
  | "lightsnowandthunder" => "⛈️ Light Snow and Thunder"
  | "heavysnowandthunder" => "⛈️ Heavy Snow and Thunder"
  | "lightrainshowers_day" => "🌦️ Light Rain Showers (Day)"
  | "heavyrainshowers_day" => "🌦️ Heavy Rain Showers (Day)"
  | "lightsleetshowers_day" => "🌦️ Light Sleet Showers (Day)"
  | "heavysleetshowers_day" => "🌦️ Heavy Sleet Showers (Day)"
  | "lightsnowshowers_day" => "🌦️ Light Snow Showers (Day)"
  | "heavysnowshowers_day" => "🌦️ Heavy Snow Showers (Day)"
  | "lightrain" => "🌧️ Light Rain"
  | "lightsleet" => "🌨️ Light Sleet"
  | "heavysleet" => "🌨️ Heavy Sleet"
  | "lightsnow" => "❄️ Light Snow"
  | "heavysnow" => "❄️ Heavy Snow"
  | "clearsky_night" => "🌙 Clear Sky (Night)"
  | "fair_night" => "🌙 Fair (Night)"
  | "partlycloudy_night" => "🌙☁️P Partly Cloudy (Night)"
  | "rainshowers_night" => "🌦️ Rain Showers (Night)"
  | "rainshowersandthunder_night" => "⛈️ Rain Showers and Thunder (Night)"
  | "sleetshowers_night" => "🌨️ Sleet Showers (Night)"
  | "snowshowers_night" => "❄️ Snow Showers (Night)"
  | "sleetshowersandthunder_night" => "⛈️ Sleet Showers and Thunder (Night)"
  | "snowshowersandthunder_night" => "⛈️ Snow Showers and Thunder (Night)"
  | "lightrainshowersandthunder_night" => "⛈️ Light Rain Showers and Thunder (Night)"
  | "heavyrainshowersandthunder_night" => "⛈️ Heavy Rain Showers and Thunder (Night)"
  | "lightssleetshowersandthunder_night" => "⛈️ Light Sleet Showers and Thunder (Night)"
  | "heavysleetshowersandthunder_night" => "⛈️ Heavy Sleet Showers and Thunder (Night)"
  | "lightssnowshowersandthunder_night" => "⛈️ Light Snow Showers and Thunder (Night)"
  | "heavysnowshowersandthunder_night" => "⛈️ Heavy Snow Showers and Thunder (Night)"
  | "lightrainshowers_night" => "🌦️ Light Rain Showers (Night)"
  | "heavyrainshowers_night" => "🌦️ Heavy Rain Showers (Night)"
  | "lightsleetshowers_night" => "🌦️ Light Sleet Showers (Night)"
  | "heavysleetshowers_night" => "🌦️ Heavy Sleet Showers (Night)"
  | "lightsnowshowers_night" => "🌦️ Light Snow Showers (Night)"
  | "heavysnowshowers_night" => "🌦️ Heavy Snow Showers (Night)"
  | "clearsky_polartwilight" => "🌌 Clear Sky (Polar Twilight)"
  | "fair_polartwilight" => "🌌 Fair (Polar Twilight)"
  | "partlycloudy_polartwilight" => "🌌 Partly Cloudy (Polar Twilight)"
  | "rainshowers_polartwilight" => "🌌 Rain Showers (Polar Twilight)"
  | "rainshowersandthunder_polartwilight" => "🌌 Rain Showers and Thunder (Polar Twilight)"
  | "sleetshowers_polartwilight" => "🌌 Sleet Showers (Polar Twilight)"
  | "snowshowers_polartwilight" => "🌌 Snow Showers (Polar Twilight)"
  | "sleetshowersandthunder_polartwilight" => "🌌 Sleet Showers and Thunder (Polar Twilight)"
  | "snowshowersandthunder_polartwilight" => "🌌 Snow Showers and Thunder (Polar Twilight)"
  | "lightrainshowersandthunder_polartwilight" => "🌌 Light Rain Showers and Thunder (Polar Twilight)"
  | "heavyrainshowersandthunder_polartwilight" => "🌌 Heavy Rain Showers and Thunder (Polar Twilight)"
  | "lightssleetshowersandthunder_polartwilight" => "🌌 Light Sleet Showers and Thunder (Polar Twilight)"
  | "heavysleetshowersandthunder_polartwilight" => "🌌 Heavy Sleet Showers and Thunder (Polar Twilight)"
  | "lightssnowshowersandthunder_polartwilight" => "🌌 Light Snow Showers and Thunder (Polar Twilight)"
  | "heavysnowshowersandthunder_polartwilight" => "🌌 Heavy Snow Showers and Thunder (Polar Twilight)"
  | "lightrainshowers_polartwilight" => "🌌 Light Rain Showers (Polar Twilight)"
  | "heavyrainshowers_polartwilight" => "🌌 Heavy Rain Showers (Polar Twilight)"
  | "lightsleetshowers_polartwilight" => "🌌 Light Sleet Showers (Polar Twilight)"
  | "heavysleetshowers_polartwilight" => "🌌 Heavy Sleet Showers (Polar Twilight)"
  | "lightsnowshowers_polartwilight" => "🌌 Light Snow Showers (Polar Twilight)"
  | "heavysnowshowers_polartwilight" => "🌌 Heavy Snow Showers (Polar Twilight)"
  | _ => description

/-- The dictionary of `format_weather_description` as an association list of
(code, label) pairs, in match-arm order, for stating its lookup behavior. -/
def weatherTable : List (String × String) :=
  [("clearsky_day", "☀️ Clear Sky (Day)"),
   ("fair_day", "🌤️ Fair (Day)"),
   ("partlycloudy_day", "⛅ Partly Cloudy (Day)"),
   ("cloudy", "☁️ Cloudy"),
   ("rainshowers_day", "🌦️ Rain Showers (Day)"),
   ("rainshowersandthunder_day", "⛈️ Rain Showers and Thunder (Day)"),
   ("sleetshowers_day", "🌨️ Sleet Showers (Day)"),
   ("snowshowers_day", "❄️ Snow Showers (Day)"),
   ("rain", "🌧️ Rain"),
   ("heavyrain", "🌧️ Heavy Rain"),
   ("heavyrainandthunder", "⛈️ Heavy Rain and Thunder"),
   ("sleet", "🌨️ Sleet"),
   ("snow", "❄️ Snow"),
   ("snowandthunder", "⛈️ Snow and Thunder"),
   ("fog", "🌫️ Fog"),
   ("sleetshowersandthunder_day", "⛈️ Sleet Showers and Thunder (Day)"),
   ("snowshowersandthunder_day", "⛈️ Snow Showers and Thunder (Day)"),
   ("rainandthunder", "⛈️ Rain and Thunder"),
   ("sleetandthunder", "⛈️ Sleet and Thunder"),
   ("lightrainshowersandthunder_day", "⛈️ Light Rain Showers and Thunder (Day)"),
   ("heavyrainshowersandthunder_day", "⛈️ Heavy Rain Showers and Thunder (Day)"),
   ("lightssleetshowersandthunder_day", "⛈️ Light Sleet Showers and Thunder (Day)"),
   ("heavysleetshowersandthunder_day", "⛈️ Heavy Sleet Showers and Thunder (Day)"),
   ("lightssnowshowersandthunder_day", "⛈️ Light Snow Showers and Thunder (Day)"),
   ("heavysnowshowersandthunder_day", "⛈️ Heavy Snow Showers and Thunder (Day)"),
   ("lightrainandthunder", "⛈️ Light Rain and Thunder"),
   ("lightsleetandthunder", "⛈️ Light Sleet and Thunder"),
   ("heavysleetandthunder", "⛈️ Heavy Sleet and Thunder"),
   ("lightsnowandthunder", "⛈️ Light Snow and Thunder"),
   ("heavysnowandthunder", "⛈️ Heavy Snow and Thunder"),
   ("lightrainshowers_day", "🌦️ Light Rain Showers (Day)"),
   ("heavyrainshowers_day", "🌦️ Heavy Rain Showers (Day)"),
   ("lightsleetshowers_day", "🌦️ Light Sleet Showers (Day)"),
   ("heavysleetshowers_day", "🌦️ Heavy Sleet Showers (Day)"),
   ("lightsnowshowers_day", "🌦️ Light Snow Showers (Day)"),
   ("heavysnowshowers_day", "🌦️ Heavy Snow Showers (Day)"),
   ("lightrain", "🌧️ Light Rain"),
   ("lightsleet", "🌨️ Light Sleet"),
   ("heavysleet", "🌨️ Heavy Sleet"),
   ("lightsnow", "❄️ Light Snow"),
   ("heavysnow", "❄️ Heavy Snow"),
   ("clearsky_night", "🌙 Clear Sky (Night)"),
   ("fair_night", "🌙 Fair (Night)"),
   ("partlycloudy_night", "🌙☁️P Partly Cloudy (Night)"),
   ("rainshowers_night", "🌦️ Rain Showers (Night)"),
   ("rainshowersandthunder_night", "⛈️ Rain Showers and Thunder (Night)"),
   ("sleetshowers_night", "🌨️ Sleet Showers (Night)"),
   ("snowshowers_night", "❄️ Snow Showers (Night)"),
   ("sleetshowersandthunder_night", "⛈️ Sleet Showers and Thunder (Night)"),
   ("snowshowersandthunder_night", "⛈️ Snow Showers and Thunder (Night)"),
   ("lightrainshowersandthunder_night", "⛈️ Light Rain Showers and Thunder (Night)"),
   ("heavyrainshowersandthunder_night", "⛈️ Heavy Rain Showers and Thunder (Night)"),
   ("lightssleetshowersandthunder_night", "⛈️ Light Sleet Showers and Thunder (Night)"),
   ("heavysleetshowersandthunder_night", "⛈️ Heavy Sleet Showers and Thunder (Night)"),
   ("lightssnowshowersandthunder_night", "⛈️ Light Snow Showers and Thunder (Night)"),
   ("heavysnowshowersandthunder_night", "⛈️ Heavy Snow Showers and Thunder (Night)"),
   ("lightrainshowers_night", "🌦️ Light Rain Showers (Night)"),
   ("heavyrainshowers_night", "🌦️ Heavy Rain Showers (Night)"),
   ("lightsleetshowers_night", "🌦️ Light Sleet Showers (Night)"),
   ("heavysleetshowers_night", "🌦️ Heavy Sleet Showers (Night)"),
   ("lightsnowshowers_night", "🌦️ Light Snow Showers (Night)"),
   ("heavysnowshowers_night", "🌦️ Heavy Snow Showers (Night)"),
   ("clearsky_polartwilight", "🌌 Clear Sky (Polar Twilight)"),
   ("fair_polartwilight", "🌌 Fair (Polar Twilight)"),
   ("partlycloudy_polartwilight", "🌌 Partly Cloudy (Polar Twilight)"),
   ("rainshowers_polartwilight", "🌌 Rain Showers (Polar Twilight)"),
   ("rainshowersandthunder_polartwilight", "🌌 Rain Showers and Thunder (Polar Twilight)"),
   ("sleetshowers_polartwilight", "🌌 Sleet Showers (Polar Twilight)"),
   ("snowshowers_polartwilight", "🌌 Snow Showers (Polar Twilight)"),
   ("sleetshowersandthunder_polartwilight", "🌌 Sleet Showers and Thunder (Polar Twilight)"),
   ("snowshowersandthunder_polartwilight", "🌌 Snow Showers and Thunder (Polar Twilight)"),
   ("lightrainshowersandthunder_polartwilight", "🌌 Light Rain Showers and Thunder (Polar Twilight)"),
   ("heavyrainshowersandthunder_polartwilight", "🌌 Heavy Rain Showers and Thunder (Polar Twilight)"),
   ("lightssleetshowersandthunder_polartwilight", "🌌 Light Sleet Showers and Thunder (Polar Twilight)"),
   ("heavysleetshowersandthunder_polartwilight", "🌌 Heavy Sleet Showers and Thunder (Polar Twilight)"),
   ("lightssnowshowersandthunder_polartwilight", "🌌 Light Snow Showers and Thunder (Polar Twilight)"),
   ("heavysnowshowersandthunder_polartwilight", "🌌 Heavy Snow Showers and Thunder (Polar Twilight)"),
   ("lightrainshowers_polartwilight", "🌌 Light Rain Showers (Polar Twilight)"),
   ("heavyrainshowers_polartwilight", "🌌 Heavy Rain Showers (Polar Twilight)"),
   ("lightsleetshowers_polartwilight", "🌌 Light Sleet Showers (Polar Twilight)"),
   ("heavysleetshowers_polartwilight", "🌌 Heavy Sleet Showers (Polar Twilight)"),
   ("lightsnowshowers_polartwilight", "🌌 Light Snow Showers (Polar Twilight)"),
   ("heavysnowshowers_polartwilight", "🌌 Heavy Snow Showers (Polar Twilight)")]

/-! ## Selection & Rendering Engine (`display_compact` and friends) -/

/-- Rust `Iterator::min_by_key`: linear scan keeping the current best, where a
later element replaces the best only when its key is strictly smaller, so the
first element attaining the minimum key is returned; `none` on an empty
iterator. -/
def minByKey (f : α → Nat) : List α → Option α
  | [] => none
  | x :: xs => some (xs.foldl (fun best y => if f y < f best then y else best) x)

/-- The selection key of the `Now` branch: absolute difference in seconds
between an entry timestamp and the captured current time
(`(timeseries.time - current_time).num_seconds().abs()`). -/
def nowKey (current_time : Int) (ts : Timeseries) : Nat :=
  (ts.time - current_time).natAbs

/-- The body line the `Now` branch pushes for the selected entry, given its
(unwrapped) `next_1_hours` summary and `air_temperature`. -/
def nowLine (n1 : Next1Hour) (temp : Int) : String :=
  format_weather_description n1.summary.symbol_code ++ " " ++ toString temp ++ "°C\n"

/-- The rest of the `Now` branch after the nearest entry was selected: unwrap
`next_1_hours` and `air_temperature` (a missing one panics) and push the
summary line. -/
def nowEntryOutput (header : String) (closest : Timeseries) : RunResult :=
  match closest.data.next_1_hours, closest.data.instant.details.air_temperature with
  | some n1, some temp => .ok (header ++ nowLine n1 temp)
  | _, _ => .panic

/-- The body line the `Today`/`Tomorrow` loops push for one matching entry. -/
def hourLine (ts : Timeseries) (n1 : Next1Hour) (temp : Int) : String :=
  formatHM ts.time ++ ": " ++ format_weather_description n1.summary.symbol_code ++
    " " ++ toString temp ++ "°C\n"

/-- The `Today` loop of `display_compact`: for each entry whose day-of-month
equals the current day-of-month, unwrap `next_1_hours` and `air_temperature`
(a missing one panics, modelled as `none`) and push one line. -/
def todayLoop (current_time : Int) : List Timeseries → Option String
  | [] => some ""
  | ts :: rest =>
    if dayOfMonth ts.time = dayOfMonth current_time then
      match ts.data.next_1_hours, ts.data.instant.details.air_temperature with
      | some n1, some temp => (todayLoop current_time rest).map (fun s => hourLine ts n1 temp ++ s)
      | _, _ => none
    else todayLoop current_time rest

/-- The `Tomorrow` loop: identical to `todayLoop` but matching entries whose
day-of-month equals current day-of-month plus one. -/
def tomorrowLoop (current_time : Int) : List Timeseries → Option String
  | [] => some ""
  | ts :: rest =>
    if dayOfMonth ts.time = dayOfMonth current_time + 1 then
      match ts.data.next_1_hours, ts.data.instant.details.air_temperature with
      | some n1, some temp => (tomorrowLoop current_time rest).map (fun s => hourLine ts n1 temp ++ s)
      | _, _ => none
    else tomorrowLoop current_time rest

/-- The body line the `Week` loop pushes for one matching entry: full weekday
name, `HH:MM`, the description of the `next_12_hours` code, and the
temperature rendered without the degree symbol. -/
def weekLine (ts : Timeseries) (n12 : Next12Hours) (temp : Int) : String :=
  formatWeekday ts.time ++ " " ++ formatHM ts.time ++ ": " ++
    format_weather_description n12.summary.symbol_code ++ " " ++ toString temp ++ "C\n"

/-- The `Week` loop: for each entry whose day-of-month lies in the inclusive
range [current day, current day + 7], unwrap `next_12_hours` and
`air_temperature` (a missing one panics) and push one line. -/
def weekLoop (current_time : Int) : List Timeseries → Option String
  | [] => some ""
  | ts :: rest =>
    if dayOfMonth current_time ≤ dayOfMonth ts.time ∧ dayOfMonth ts.time ≤ dayOfMonth current_time + 7 then
      match ts.data.next_12_hours, ts.data.instant.details.air_temperature with
      | some n12, some temp => (weekLoop current_time rest).map (fun s => weekLine ts n12 temp ++ s)
      | _, _ => none
    else weekLoop current_time rest

/-- `WeatherData::display_compact` from src/weather.rs, with `Utc::now()`
modelled as the explicit `current_time` argument captured once at the start of
the call. -/
def display_compact (wd : WeatherData) (duration : DurationType) (location_name : String)
    (current_time : Int) : RunResult :=
  let header := "Weather for " ++ location_name ++ " "
  match duration with
  | .Now =>
    match minByKey (nowKey current_time) wd.properties.timeseries with
    | none => .panic
    | some closest =>
      nowEntryOutput (header ++ "at " ++ formatHM current_time ++ "\n") closest
  | .Today =>
    match todayLoop current_time wd.properties.timeseries with
    | some body => .ok (header ++ "on " ++ formatDate current_time ++ "\n" ++ body)
    | none => .panic
  | .Tomorrow =>
    match tomorrowLoop current_time wd.properties.timeseries with
    | some body => .ok (header ++ "on " ++ formatDate current_time ++ "\n" ++ body)
    | none => .panic
  | .Week =>
    match weekLoop current_time wd.properties.timeseries with
    | some body => .ok (header ++ "this week\n" ++ body)
    | none => .panic

/-- `WeatherData::display_detailed` from src/weather.rs: stub returning an
empty string. -/
def display_detailed (_wd : WeatherData) (_duration : DurationType)
    (_location_name : String) : RunResult :=
  .ok ""

/-- `WeatherData::display_complete` from src/weather.rs: stub returning an
empty string. -/
def display_complete (_wd : WeatherData) (_duration : DurationType)
    (_location_name : String) : RunResult :=
  .ok ""

/-- The engine entry point: the output-mode dispatch of `WeatherData::display`
from src/weather.rs, without the caller-side `println!`. -/
def render (wd : WeatherData) (duration : DurationType) (location_name : String)
    (output_mode : OutputMode) (current_time : Int) : RunResult :=
  match output_mode with
  | .Compact => display_compact wd duration location_name current_time
  | .Detailed => display_detailed wd duration location_name
  | .Complete => display_complete wd duration location_name

/-- Right-fold concatenation of a list of output lines, for stating what the
rendering loops emit. -/
def strConcat : List String → String
  | [] => ""
  | s :: rest => s ++ strConcat rest

/-! ## Concrete forecast data used by the witnesses -/

/-- Concrete series for exercising the Now selection: entries 300 seconds
before and 50 seconds after the reference time 0. -/
def wdNowPair : WeatherData :=
  { properties :=
    { timeseries :=
      [ { time := -300,
          data := { instant := ⟨{ air_temperature := some 3 }⟩,
                    next_1_hours := some ⟨⟨"rain"⟩, none⟩ } },
        { time := 50,
          data := { instant := ⟨{ air_temperature := some 4 }⟩,
                    next_1_hours := some ⟨⟨"cloudy"⟩, none⟩ } } ] } }

/-- A forecast with an empty series (the upstream precondition violated). -/
def wdEmptySeries : WeatherData :=
  { properties := { timeseries := [] } }

/-- Convenience constructor for concrete forecast entries: timestamp, optional
`next_1_hours` code, optional `next_12_hours` code, optional temperature. -/
def mkEntry (time : Int) (n1 : Option String) (n12 : Option String) (temp : Option Int) : Timeseries :=
  { time := time,
    data := { instant := ⟨{ air_temperature := temp }⟩,
              next_12_hours := n12.map (fun c => ⟨⟨c⟩, none⟩),
              next_1_hours := n1.map (fun c => ⟨⟨c⟩, none⟩) } }

/-- Three entries on 2026-01-15 and one on 2026-01-16, all fully populated. -/
def wdTodayThree : WeatherData :=
  { properties := { timeseries :=
      [ mkEntry 1768456800 (some "cloudy") none (some 2),
        mkEntry 1768478400 (some "rain") none (some 4),
        mkEntry 1768500000 (some "clearsky_night") none (some 1),
        mkEntry 1768554000 (some "snow") none (some 0) ] } }

/-- Entries on 2026-01-10, 2026-01-17 (7 days ahead) and 2026-01-18 (8 days
ahead), all with `next_12_hours` populated. -/
def wdWeekSpan : WeatherData :=
  { properties := { timeseries :=
      [ mkEntry 1768046400 none (some "cloudy") (some 3),
        mkEntry 1768629600 none (some "rain") (some 5),
        mkEntry 1768716000 none (some "snow") (some (-2)) ] } }

/-- A single fully populated entry on 2026-02-01, the day after a month
boundary. -/
def wdTomorrowBoundary : WeatherData :=
  { properties := { timeseries := [ mkEntry 1769925600 (some "fog") none (some 1) ] } }

/-- A single entry at the epoch with both required Now fields populated. -/
def wdNowOk : WeatherData :=
  { properties := { timeseries := [ mkEntry 0 (some "cloudy") none (some 5) ] } }

/-- A single entry at the epoch lacking `next_1_hours`. -/
def wdNowMissing : WeatherData :=
  { properties := { timeseries := [ mkEntry 0 none none (some 5) ] } }

/-- A single entry on the current day (1970-01-01) lacking `next_1_hours`. -/
def wdTodayMissing : WeatherData :=
  { properties := { timeseries := [ mkEntry 3600 none none (some 5) ] } }

/-- A single entry on the next day (1970-01-02) lacking `next_1_hours`. -/
def wdTomorrowMissing : WeatherData :=
  { properties := { timeseries := [ mkEntry 90000 none none (some 5) ] } }

/-- A single entry inside the week window lacking `next_12_hours` (its
`next_1_hours` is present, which the Week branch does not read). -/
def wdWeekMissing : WeatherData :=
  { properties := { timeseries := [ mkEntry 3600 (some "cloudy") none (some 5) ] } }

/-! ## Theorems -/

/-- The fold at the heart of `minByKey` returns an element of `x :: xs` that
attains the minimum key, and every element strictly before it in the list has
a strictly larger key (so ties are broken in favour of the first occurrence,
as Rust's `Iterator::min_by_key` documents). -/
theorem foldl_minByKey_spec (f : α → Nat) :
    ∀ (xs : List α) (x : α),
      ∃ l₁ l₂,
        x :: xs = l₁ ++ (xs.foldl (fun best y => if f y < f best then y else best) x) :: l₂ ∧
        (∀ z ∈ x :: xs, f (xs.foldl (fun best y => if f y < f best then y else best) x) ≤ f z) ∧
        (∀ z ∈ l₁, f (xs.foldl (fun best y => if f y < f best then y else best) x) < f z) := by
  intro xs
  induction xs with
  | nil =>
    intro x
    exact ⟨[], [], rfl, by simp, by simp⟩
  | cons y ys ih =>
    intro x
    rw [List.foldl_cons]
    by_cases h : f y < f x
    · simp only [h, if_pos]
      obtain ⟨l₁, l₂, hdec, hmin, hfirst⟩ := ih y
      refine ⟨x :: l₁, l₂, by simp [hdec], ?_, ?_⟩
      · intro z hz
        rcases List.mem_cons.mp hz with hz | hz
        · subst hz
          exact le_of_lt (lt_of_le_of_lt (hmin y (by simp)) h)
        · exact hmin z hz
      · intro z hz
        rcases List.mem_cons.mp hz with hz | hz
        · subst hz
          exact lt_of_le_of_lt (hmin y (by simp)) h
        · exact hfirst z hz
    · simp only [h, if_neg, not_false_iff]
      obtain ⟨l₁, l₂, hdec, hmin, hfirst⟩ := ih x
      match l₁, hdec with
      | [], hdec =>
        have hr : ys.foldl (fun best y => if f y < f best then y else best) x = x := by
          simpa using congrArg (fun l => l.headD x) hdec.symm
        refine ⟨[], y :: ys, by simp [hr], ?_, by simp⟩
        intro z hz
        rcases List.mem_cons.mp hz with hz | hz
        · subst hz
          simp [hr]
        rcases List.mem_cons.mp hz with hz | hz
        · subst hz
          rw [hr]
          exact le_of_not_lt h
        · exact hmin z (by simp [hz])
      | a :: l₁, hdec =>
        rw [List.cons_append] at hdec
        obtain ⟨hxa, hys⟩ := List.cons_eq_cons.mp hdec
        have hrx : f (ys.foldl (fun best y => if f y < f best then y else best) x) < f x := by
          refine hfirst x ?_
          rw [hxa]
          simp
        refine ⟨x :: y :: l₁, l₂, congrArg (List.cons x) (congrArg (List.cons y) hys), ?_, ?_⟩
        · intro z hz
          rcases List.mem_cons.mp hz with hz | hz
          · subst hz
            exact le_of_lt hrx
          rcases List.mem_cons.mp hz with hz | hz
          · subst hz
            exact le_of_lt (lt_of_lt_of_le hrx (le_of_not_lt h))
          · exact hmin z (by simp [hz])
        · intro z hz
          rcases List.mem_cons.mp hz with hz | hz
          · subst hz
            exact hrx
          rcases List.mem_cons.mp hz with hz | hz
          · subst hz
            exact lt_of_lt_of_le hrx (le_of_not_lt h)
          · exact hfirst z (List.mem_cons_of_mem a hz)

/-- On a non-empty list, `minByKey` returns the first element attaining the
minimum key. -/
theorem minByKey_first_min (f : α → Nat) (l : List α) (h : l ≠ []) :
    ∃ r l₁ l₂,
      minByKey f l = some r ∧
      l = l₁ ++ r :: l₂ ∧
      (∀ z ∈ l, f r ≤ f z) ∧
      (∀ z ∈ l₁, f r < f z) := by
  match l, h with
  | x :: xs, _ =>
    obtain ⟨l₁, l₂, hdec, hmin, hfirst⟩ := foldl_minByKey_spec f xs x
    exact ⟨_, l₁, l₂, rfl, hdec, hmin, hfirst⟩

/-- C1: for every non-empty forecast series, `render` with duration=Now selects
the entry whose timestamp has the smallest absolute difference in seconds from
the current time captured at the start of the call, breaking ties in favour of
the first such entry in series order, and the Now output is produced from
exactly that entry. -/
theorem now_selects_nearest_first (wd : WeatherData) (loc : String) (t : Int)
    (h : wd.properties.timeseries ≠ []) :
    ∃ r l₁ l₂,
      minByKey (nowKey t) wd.properties.timeseries = some r ∧
      wd.properties.timeseries = l₁ ++ r :: l₂ ∧
      (∀ z ∈ wd.properties.timeseries, nowKey t r ≤ nowKey t z) ∧
      (∀ z ∈ l₁, nowKey t r < nowKey t z) ∧
      display_compact wd .Now loc t =
        nowEntryOutput ("Weather for " ++ loc ++ " " ++ "at " ++ formatHM t ++ "\n") r := by
  obtain ⟨r, l₁, l₂, hsel, hdec, hmin, hfirst⟩ :=
    minByKey_first_min (nowKey t) wd.properties.timeseries h
  refine ⟨r, l₁, l₂, hsel, hdec, hmin, hfirst, ?_⟩
  simp [display_compact, hsel, String.append_assoc]

/-- Witness for C1 at the spec's own example: entries at T-300s and T+50s with
current time T = 0. -/
theorem now_selects_nearest_first_witness :
    wdNowPair.properties.timeseries ≠ [] ∧
    ∃ r l₁ l₂,
      minByKey (nowKey 0) wdNowPair.properties.timeseries = some r ∧
      wdNowPair.properties.timeseries = l₁ ++ r :: l₂ ∧
      (∀ z ∈ wdNowPair.properties.timeseries, nowKey 0 r ≤ nowKey 0 z) ∧
      (∀ z ∈ l₁, nowKey 0 r < nowKey 0 z) ∧
      display_compact wdNowPair .Now "Oslo" 0 =
        nowEntryOutput ("Weather for " ++ "Oslo" ++ " " ++ "at " ++ formatHM 0 ++ "\n") r :=
  ⟨by simp [wdNowPair], now_selects_nearest_first wdNowPair "Oslo" 0 (by simp [wdNowPair])⟩

/-- C10: under the non-emptiness precondition the Now branch's nearest-entry
selection always yields some entry (so that failure point is unreachable),
while on the empty series — excluded by the precondition — the selection has
nothing to return and the Now branch aborts (a panic, not graceful handling). -/
theorem now_selection_total_on_nonempty :
    (∀ (l : List Timeseries) (t : Int), l ≠ [] → (minByKey (nowKey t) l).isSome = true) ∧
    (∀ (wd : WeatherData) (loc : String) (t : Int), wd.properties.timeseries = [] →
      display_compact wd .Now loc t = .panic) := by
  constructor
  · intro l t h
    match l, h with
    | x :: xs, _ => rfl
  · intro wd loc t h
    simp [display_compact, h, minByKey]

/-- Witness for C10: a singleton series selects some entry; the empty series
makes the Now branch abort. -/
theorem now_selection_total_on_nonempty_witness :
    (minByKey (nowKey 0) [{ time := 0, data := { instant := ⟨{}⟩ } }]).isSome = true ∧
    display_compact wdEmptySeries .Now "Oslo" 0 = .panic :=
  ⟨now_selection_total_on_nonempty.1 [{ time := 0, data := { instant := ⟨{}⟩ } }] 0 (by simp),
   now_selection_total_on_nonempty.2 wdEmptySeries "Oslo" 0 rfl⟩

/-- C7: for every series and duration, `render` with output mode Detailed or
Complete returns the empty string and never an error. -/
theorem detailed_complete_return_empty :
    ∀ (wd : WeatherData) (dur : DurationType) (loc : String) (t : Int),
      render wd dur loc .Detailed t = .ok "" ∧ render wd dur loc .Complete t = .ok "" := by
  intro wd dur loc t
  exact ⟨rfl, rfl⟩

/-- C9: rendering is deterministic and stateless — its result depends only on
the argument series, the request, and the captured current time, so two calls
with identical series, identical request, and the same current time produce
identical output (the series itself is a value the engine cannot mutate). -/
theorem render_deterministic_stateless :
    ∀ (wd wd' : WeatherData) (dur : DurationType) (loc : String) (mode : OutputMode) (t : Int),
      wd.properties.timeseries = wd'.properties.timeseries →
      render wd dur loc mode t = render wd' dur loc mode t := by
  intro wd wd' dur loc mode t h
  cases mode <;> cases dur <;>
    simp [render, display_compact, display_detailed, display_complete, h]

/-- Witness for C9: two forecasts agreeing on the series (differing elsewhere)
render identically. -/
theorem render_deterministic_stateless_witness :
    render { type := "Feature", properties := { timeseries := [] } } .Now "Oslo" .Compact 0 =
      render { type := "Other", properties := { timeseries := [] } } .Now "Oslo" .Compact 0 :=
  render_deterministic_stateless
    { type := "Feature", properties := { timeseries := [] } }
    { type := "Other", properties := { timeseries := [] } } .Now "Oslo" .Compact 0 rfl

set_option maxHeartbeats 1000000 in
/-- C6: the weather-code dictionary is a total pure function: every code in the
static table maps to its exact documented icon-prefixed label, and every code
outside the table is returned unchanged (never failing). -/
theorem describe_known_and_fallback :
    (∀ p ∈ weatherTable, format_weather_description p.1 = p.2) ∧
    (∀ c : String, c ∉ weatherTable.map Prod.fst → format_weather_description c = c) := by
  constructor
  · decide
  · intro c hc
    unfold format_weather_description
    split
    all_goals first
      | rfl
      | exact absurd (by decide) hc

/-- Witness for C6: one known code maps to its label, one unknown code passes
through unchanged. -/
theorem describe_known_and_fallback_witness :
    format_weather_description "rain" = "🌧️ Rain" ∧
    format_weather_description "drizzle_day" = "drizzle_day" :=
  ⟨describe_known_and_fallback.1 ("rain", "🌧️ Rain") (by decide),
   describe_known_and_fallback.2 "drizzle_day" (by decide)⟩

/-- `todayLoop` on a list whose day-matching entries all carry `next_1_hours`
and `air_temperature` emits exactly one `hourLine` per matching entry, in list
order. -/
theorem todayLoop_eq_filter (t : Int) (l : List Timeseries)
    (h : ∀ ts ∈ l, dayOfMonth ts.time = dayOfMonth t →
      ts.data.next_1_hours.isSome ∧ ts.data.instant.details.air_temperature.isSome) :
    todayLoop t l = some (strConcat ((l.filter
        (fun ts => decide (dayOfMonth ts.time = dayOfMonth t))).map
      (fun ts => hourLine ts (ts.data.next_1_hours.getD default)
        (ts.data.instant.details.air_temperature.getD 0)))) := by
  induction l with
  | nil => simp [todayLoop, strConcat]
  | cons ts rest ih =>
    have hrest := fun z hz => h z (List.mem_cons_of_mem ts hz)
    by_cases hd : dayOfMonth ts.time = dayOfMonth t
    · obtain ⟨h1, h2⟩ := h ts (List.mem_cons_self ts rest) hd
      obtain ⟨n1, hn1⟩ := Option.isSome_iff_exists.mp h1
      obtain ⟨temp, htemp⟩ := Option.isSome_iff_exists.mp h2
      simp [todayLoop, hd, hn1, htemp, ih hrest, strConcat]
    · simp [todayLoop, hd, ih hrest]

/-- `tomorrowLoop` on a list whose matching entries (day-of-month equal to the
current day-of-month plus one) all carry the required fields emits exactly one
`hourLine` per matching entry, in list order. -/
theorem tomorrowLoop_eq_filter (t : Int) (l : List Timeseries)
    (h : ∀ ts ∈ l, dayOfMonth ts.time = dayOfMonth t + 1 →
      ts.data.next_1_hours.isSome ∧ ts.data.instant.details.air_temperature.isSome) :
    tomorrowLoop t l = some (strConcat ((l.filter
        (fun ts => decide (dayOfMonth ts.time = dayOfMonth t + 1))).map
      (fun ts => hourLine ts (ts.data.next_1_hours.getD default)
        (ts.data.instant.details.air_temperature.getD 0)))) := by
  induction l with
  | nil => simp [tomorrowLoop, strConcat]
  | cons ts rest ih =>
    have hrest := fun z hz => h z (List.mem_cons_of_mem ts hz)
    by_cases hd : dayOfMonth ts.time = dayOfMonth t + 1
    · obtain ⟨h1, h2⟩ := h ts (List.mem_cons_self ts rest) hd
      obtain ⟨n1, hn1⟩ := Option.isSome_iff_exists.mp h1
      obtain ⟨temp, htemp⟩ := Option.isSome_iff_exists.mp h2
      simp [tomorrowLoop, hd, hn1, htemp, ih hrest, strConcat]
    · simp [tomorrowLoop, hd, ih hrest]

/-- `weekLoop` on a list whose in-window entries (day-of-month within
[current, current + 7]) all carry `next_12_hours` and `air_temperature` emits
exactly one `weekLine` per in-window entry, in list order. -/
theorem weekLoop_eq_filter (t : Int) (l : List Timeseries)
    (h : ∀ ts ∈ l, (dayOfMonth t ≤ dayOfMonth ts.time ∧ dayOfMonth ts.time ≤ dayOfMonth t + 7) →
      ts.data.next_12_hours.isSome ∧ ts.data.instant.details.air_temperature.isSome) :
    weekLoop t l = some (strConcat ((l.filter
        (fun ts => decide (dayOfMonth t ≤ dayOfMonth ts.time ∧ dayOfMonth ts.time ≤ dayOfMonth t + 7))).map
      (fun ts => weekLine ts (ts.data.next_12_hours.getD default)
        (ts.data.instant.details.air_temperature.getD 0)))) := by
  induction l with
  | nil => simp [weekLoop, strConcat]
  | cons ts rest ih =>
    have hrest := fun z hz => h z (List.mem_cons_of_mem ts hz)
    by_cases hd : dayOfMonth t ≤ dayOfMonth ts.time ∧ dayOfMonth ts.time ≤ dayOfMonth t + 7
    · obtain ⟨h1, h2⟩ := h ts (List.mem_cons_self ts rest) hd
      obtain ⟨n12, hn12⟩ := Option.isSome_iff_exists.mp h1
      obtain ⟨temp, htemp⟩ := Option.isSome_iff_exists.mp h2
      simp [weekLoop, hd, hn12, htemp, ih hrest, strConcat]
    · simp [weekLoop, hd, ih hrest]

/-- C3: when every entry carries `next_1_hours` and `air_temperature`, Today
rendering emits the header with the current date (full weekday, day, month)
followed by exactly one `HH:MM: description temperature°C` line per entry whose
day-of-month equals the current day-of-month, in series order. -/
theorem today_renders_matching_entries (wd : WeatherData) (loc : String) (t : Int)
    (h : ∀ ts ∈ wd.properties.timeseries,
      ts.data.next_1_hours.isSome ∧ ts.data.instant.details.air_temperature.isSome) :
    display_compact wd .Today loc t =
      .ok ("Weather for " ++ loc ++ " " ++ "on " ++ formatDate t ++ "\n" ++
        strConcat ((wd.properties.timeseries.filter
            (fun ts => decide (dayOfMonth ts.time = dayOfMonth t))).map
          (fun ts => hourLine ts (ts.data.next_1_hours.getD default)
            (ts.data.instant.details.air_temperature.getD 0)))) := by
  have hl := todayLoop_eq_filter t wd.properties.timeseries (fun ts hts _ => h ts hts)
  simp [display_compact, hl, String.append_assoc]

/-- Witness for C3 at the spec's own example: three populated entries on
day-of-month 15 and one on day 16, current day 15 — exactly three lines, in
series order. -/
theorem today_renders_matching_entries_witness :
    display_compact wdTodayThree .Today "Oslo" 1768471200 =
      .ok ("Weather for Oslo on Thursday, 15 January\n" ++
        "06:00: ☁️ Cloudy 2°C\n12:00: 🌧️ Rain 4°C\n18:00: 🌙 Clear Sky (Night) 1°C\n") :=
  (today_renders_matching_entries wdTodayThree "Oslo" 1768471200 (by decide)).trans (by rfl)

/-- C4: Week rendering emits one line exactly for every entry whose
day-of-month lies in the inclusive range [current day, current day + 7], with
the condition description read from `next_12_hours` (not `next_1_hours`) and
the temperature rendered without the degree symbol (`weekLine`). -/
theorem week_renders_range_entries (wd : WeatherData) (loc : String) (t : Int)
    (h : ∀ ts ∈ wd.properties.timeseries,
      (dayOfMonth t ≤ dayOfMonth ts.time ∧ dayOfMonth ts.time ≤ dayOfMonth t + 7) →
      ts.data.next_12_hours.isSome ∧ ts.data.instant.details.air_temperature.isSome) :
    display_compact wd .Week loc t =
      .ok ("Weather for " ++ loc ++ " " ++ "this week\n" ++
        strConcat ((wd.properties.timeseries.filter
            (fun ts => decide (dayOfMonth t ≤ dayOfMonth ts.time ∧ dayOfMonth ts.time ≤ dayOfMonth t + 7))).map
          (fun ts => weekLine ts (ts.data.next_12_hours.getD default)
            (ts.data.instant.details.air_temperature.getD 0)))) := by
  have hl := weekLoop_eq_filter t wd.properties.timeseries h
  simp [display_compact, hl, String.append_assoc]

/-- Witness for C4 at the spec's own example: with current day 10, the entry
exactly 7 days ahead (day 17) is included and the entry 8 days ahead (day 18)
is excluded; descriptions come from `next_12_hours` and temperatures carry no
degree symbol. -/
theorem week_renders_range_entries_witness :
    display_compact wdWeekSpan .Week "Oslo" 1768046400 =
      .ok ("Weather for Oslo this week\n" ++
        "Saturday 12:00: ☁️ Cloudy 3C\nSaturday 06:00: 🌧️ Rain 5C\n") :=
  (week_renders_range_entries wdWeekSpan "Oslo" 1768046400 (by decide)).trans (by rfl)

/-- C8: Tomorrow rendering behaves like Today except that it selects entries
whose day-of-month equals the current day-of-month plus one (raw day-of-month
comparison); consequently, when the current day is the last of a month (day
31), entries of the following month (day 1) never match. -/
theorem tomorrow_matches_next_day_of_month (wd : WeatherData) (loc : String) (t : Int)
    (h : ∀ ts ∈ wd.properties.timeseries, dayOfMonth ts.time = dayOfMonth t + 1 →
      ts.data.next_1_hours.isSome ∧ ts.data.instant.details.air_temperature.isSome) :
    (display_compact wd .Tomorrow loc t =
      .ok ("Weather for " ++ loc ++ " " ++ "on " ++ formatDate t ++ "\n" ++
        strConcat ((wd.properties.timeseries.filter
            (fun ts => decide (dayOfMonth ts.time = dayOfMonth t + 1))).map
          (fun ts => hourLine ts (ts.data.next_1_hours.getD default)
            (ts.data.instant.details.air_temperature.getD 0))))) ∧
    (dayOfMonth t = 31 → ∀ ts ∈ wd.properties.timeseries, dayOfMonth ts.time = 1 →
      ts ∉ wd.properties.timeseries.filter
        (fun ts => decide (dayOfMonth ts.time = dayOfMonth t + 1))) := by
  constructor
  · have hl := tomorrowLoop_eq_filter t wd.properties.timeseries h
    simp [display_compact, hl, String.append_assoc]
  · intro h31 ts _ h1 hmem
    have hp := (List.mem_filter.mp hmem).2
    rw [h31, h1] at hp
    simp at hp

/-- Witness for C8 at a month boundary: current day 2026-01-31, a populated
entry on 2026-02-01 — the output contains no forecast line and the entry is
not selected. -/
theorem tomorrow_matches_next_day_of_month_witness :
    display_compact wdTomorrowBoundary .Tomorrow "Oslo" 1769860800 =
      .ok "Weather for Oslo on Saturday, 31 January\n" ∧
    mkEntry 1769925600 (some "fog") none (some 1) ∉
      wdTomorrowBoundary.properties.timeseries.filter
        (fun ts => decide (dayOfMonth ts.time = dayOfMonth 1769860800 + 1)) :=
  ⟨((tomorrow_matches_next_day_of_month wdTomorrowBoundary "Oslo" 1769860800 (by decide)).1).trans
      (by rfl),
   (tomorrow_matches_next_day_of_month wdTomorrowBoundary "Oslo" 1769860800 (by decide)).2
      (by decide) (mkEntry 1769925600 (some "fog") none (some 1)) (by decide) (by decide)⟩

/-- C2: the Now branch does not return `Err(MissingData)` when the selected
nearest entry lacks `next_1_hours`: the source unwraps the missing field and
panics instead (the `WeatherError::MissingData` value is declared but never
constructed anywhere in src/weather.rs), while a fully populated nearest entry
does succeed. -/
theorem now_missing_field_panics :
    display_compact wdNowMissing .Now "Oslo" 0 = .panic ∧
    display_compact wdNowMissing .Now "Oslo" 0 ≠ .err .MissingData ∧
    display_compact wdNowOk .Now "Oslo" 0 = .ok "Weather for Oslo at 00:00\n☁️ Cloudy 5°C\n" :=
  ⟨by rfl, by decide, by rfl⟩

/-- C5: in each of the Today, Tomorrow and Week branches, an entry selected by
the day filter that lacks the field the mode requires makes the whole call
abort by panic (no partial output, but also no `Err(MissingData)` — the error
value the claim and the code's own error type promise is never produced). -/
theorem loops_missing_field_panic :
    display_compact wdTodayMissing .Today "Oslo" 0 = .panic ∧
    display_compact wdTomorrowMissing .Tomorrow "Oslo" 0 = .panic ∧
    display_compact wdWeekMissing .Week "Oslo" 0 = .panic ∧
    display_compact wdTodayMissing .Today "Oslo" 0 ≠ .err .MissingData :=
  ⟨by rfl, by rfl, by rfl, by decide⟩

end WeatherCli
